import Mathlib

/-
  Verification development for the marz-go-pasarguard migration tool.

  The repository contains two Python variants of the migration engine:
    * marz-go-pasarguard.py  (modelled below in namespace MarzGo)
    * migration_utils.py     (modelled below in namespace MigrationUtils)

  SQL tables are modelled as lists of rows; a primary-key lookup scans for
  the first row whose key matches.  The three write primitives used by the
  source are modelled generically:
    * upsertRow       — INSERT ... ON DUPLICATE KEY UPDATE <all non-key cols>
                        / ON CONFLICT (pk) DO UPDATE SET <all non-key cols>,
                        i.e. replace the conflicting row with the incoming one
    * insertIgnoreRow — INSERT IGNORE / ON CONFLICT DO NOTHING
    * insertRow       — plain INSERT, which fails on a primary-key conflict
-/

section Tables

variable {α : Type} {K : Type} [DecidableEq K]

/-- First row of `t` whose key is `k` (SQL primary-key lookup). -/
def lookupRow (key : α → K) : List α → K → Option α
  | [], _ => none
  | r :: t, k => if key r = k then some r else lookupRow key t k

/-- Replace the first row sharing the key of `r` by `r`; append `r` if absent. -/
def upsertRow (key : α → K) (r : α) : List α → List α
  | [] => [r]
  | x :: t => if key x = key r then r :: t else x :: upsertRow key r t

/-- Whether some row of `t` has key `k`. -/
def hasKey (key : α → K) (t : List α) (k : K) : Bool :=
  (lookupRow key t k).isSome

/-- INSERT IGNORE: keep the table unchanged if the key is present. -/
def insertIgnoreRow (key : α → K) (t : List α) (r : α) : List α :=
  if hasKey key t (key r) then t else t ++ [r]

/-- Plain INSERT: a primary-key conflict raises (modelled as `Except.error`). -/
def insertRow (key : α → K) (t : List α) (r : α) : Except String (List α) :=
  if hasKey key t (key r) then Except.error "duplicate key" else Except.ok (t ++ [r])

/-- Apply a row-by-row upsert loop over `rows` in source iteration order. -/
def runUpserts (key : α → K) (t : List α) (rows : List α) : List α :=
  rows.foldl (fun acc r => upsertRow key r acc) t

/-- Apply a row-by-row INSERT IGNORE loop over `rows`. -/
def runInsertIgnores (key : α → K) (t : List α) (rows : List α) : List α :=
  rows.foldl (insertIgnoreRow key) t

/-- Last element of `rows` whose key is `k`. -/
def lastWith (key : α → K) (k : K) : List α → Option α
  | [] => none
  | r :: t =>
    match lastWith key k t with
    | some x => some x
    | none => if key r = k then some r else none

/-- The key sequence of a table. -/
def keysOf (key : α → K) (t : List α) : List K :=
  t.map key

end Tables
/-
  Python `datetime.datetime` values are modelled by their POSIX timestamp
  (seconds, as an integer).  `datetime.datetime.fromtimestamp` is the stdlib
  epoch-to-datetime conversion used by both variants.
-/

structure PyDatetime where
  epoch : Int
  deriving DecidableEq

def fromtimestamp (n : Int) : PyDatetime := ⟨n⟩

/-- Number of days since 1970-01-01 of the civil date `y-m-d`
(proleptic Gregorian calendar), for `y ≥ 1`. -/
def days_from_civil (y m d : Int) : Int :=
  let y2 := if m ≤ 2 then y - 1 else y
  let era := y2 / 400
  let yoe := y2 - era * 400
  let mp := (m + 9) % 12
  let doy := (153 * mp + 2) / 5 + d - 1
  let doe := yoe * 365 + yoe / 4 - yoe / 100 + doy
  era * 146097 + doe - 719468

/-- The `PyDatetime` of a UTC civil date and time. -/
def PyDatetime.ofCivil (y mo d h mi s : Nat) : PyDatetime :=
  ⟨days_from_civil (Int.ofNat y) (Int.ofNat mo) (Int.ofNat d) * 86400
    + Int.ofNat h * 3600 + Int.ofNat mi * 60 + Int.ofNat s⟩

/-- Modelled from the external date parsers the source calls
(`dateutil.parser.parse`, with `datetime.datetime.fromisoformat` as the
fallback), restricted to the basic ISO-8601 form `YYYY-MM-DDTHH:MM:SS`;
any other input fails, modelling a parse error. -/
def parse_date (str : String) : Option PyDatetime :=
  let cs := str.toList
  let dg := fun (i : Nat) => (cs.getD i 'x').toNat - 48
  let isd := fun (i : Nat) => (cs.getD i 'x').isDigit = true
  if cs.length = 19 ∧ cs.getD 4 'x' = '-' ∧ cs.getD 7 'x' = '-' ∧ cs.getD 10 'x' = 'T'
      ∧ cs.getD 13 'x' = ':' ∧ cs.getD 16 'x' = ':'
      ∧ isd 0 ∧ isd 1 ∧ isd 2 ∧ isd 3 ∧ isd 5 ∧ isd 6 ∧ isd 8 ∧ isd 9
      ∧ isd 11 ∧ isd 12 ∧ isd 14 ∧ isd 15 ∧ isd 17 ∧ isd 18 then
    let yr := dg 0 * 1000 + dg 1 * 100 + dg 2 * 10 + dg 3
    let mo := dg 5 * 10 + dg 6
    let dy := dg 8 * 10 + dg 9
    let hr := dg 11 * 10 + dg 12
    let mi := dg 14 * 10 + dg 15
    let sec := dg 17 * 10 + dg 18
    if 1 ≤ yr ∧ 1 ≤ mo ∧ mo ≤ 12 ∧ 1 ≤ dy ∧ dy ≤ 31 ∧ hr ≤ 23 ∧ mi ≤ 59 ∧ sec ≤ 59 then
      some (PyDatetime.ofCivil yr mo dy hr mi sec)
    else none
  else none

/-
  ALPN column values observed in the source database: NULL, a string, or a
  structured list (the shapes the two `safe_alpn` variants distinguish).
  `pyStrList` models Python `str(...)` of a list of strings and
  `jsonDumpsList` models `json.dumps` of a list of strings.
-/

inductive AlpnVal where
  | none
  | str (s : String)
  | list (xs : List String)
  deriving DecidableEq

/-- Python `str.strip()`: drop leading and trailing whitespace. -/
def pyStrip (s : String) : String :=
  String.mk (((s.toList.dropWhile Char.isWhitespace).reverse.dropWhile Char.isWhitespace).reverse)

/-- Python `str.lower()` (ASCII case folding). -/
def pyLower (s : String) : String :=
  String.mk (s.toList.map Char.toLower)

/-- Python `str(...)` of a list of strings, e.g. `[\x27h2\x27, \x27http/1.1\x27]`. -/
def pyStrList (xs : List String) : String :=
  "[" ++ String.intercalate ", " (xs.map (fun s => "\x27" ++ s ++ "\x27")) ++ "]"

/-- Python `json.dumps` of a list of strings, e.g. `["h2", "http/1.1"]`. -/
def jsonDumpsList (xs : List String) : String :=
  "[" ++ String.intercalate ", " (xs.map (fun s => "\x22" ++ s ++ "\x22")) ++ "]"

/-
  JSON-ish field values fed to `safe_json`.  `json.loads`/`json.dumps` are
  stdlib calls, modelled by their outcome: a string field carries a `valid`
  oracle bit recording whether `json.loads` succeeds on it, and a structured
  value carries its `json.dumps` serialization.
-/

inductive PyJsonVal where
  | none
  | str (s : String) (valid : Bool)
  | obj (dump : String)
  deriving DecidableEq

namespace MarzGo

/-- `safe_alpn` from marz-go-pasarguard.py: NULL/empty/"none"/"null"
(trimmed, lowercased) map to NULL; lists and dicts are JSON-dumped;
other strings are trimmed. -/
def safe_alpn (value : AlpnVal) : Option String :=
  match value with
  | AlpnVal.none => none
  | AlpnVal.str s =>
    if s = "" ∨ pyLower (pyStrip s) ∈ ["none", "null", ""] then none
    else some (pyStrip s)
  | AlpnVal.list xs =>
    if xs = [] ∨ pyLower (pyStrip (pyStrList xs)) ∈ ["none", "null", ""] then none
    else some (jsonDumpsList xs)

/-- `safe_json` from marz-go-pasarguard.py. -/
def safe_json (value : PyJsonVal) : Option String :=
  match value with
  | PyJsonVal.none => none
  | PyJsonVal.str s valid => if s = "" then none else if valid then some s else none
  | PyJsonVal.obj d => some d

end MarzGo

namespace MigrationUtils

/-- `safe_alpn` from migration_utils.py: identical to the marz-go variant on
NULL and strings, but a non-NULL non-string value falls through to
`str(value).strip()` instead of `json.dumps`. -/
def safe_alpn (value : AlpnVal) : Option String :=
  match value with
  | AlpnVal.none => none
  | AlpnVal.str s =>
    if s = "" ∨ pyLower (pyStrip s) ∈ ["none", "null", ""] then none
    else some (pyStrip s)
  | AlpnVal.list xs =>
    if xs = [] ∨ pyLower (pyStrip (pyStrList xs)) ∈ ["none", "null", ""] then none
    else some (pyStrip (pyStrList xs))

end MigrationUtils

/-
  Row types.  Each structure lists, in order, the columns the corresponding
  SELECT/INSERT in the source reads or writes.  Timestamps are POSIX seconds
  (`Int`); nullable columns are `Option`; `created_at`-style columns written
  with SQL `NOW()` carry the source row value through unchanged and the
  target-side `NOW()` writes are omitted from row types they would occupy
  (wall-clock time is outside the embedding).  The FLOAT column
  `usage_coefficient` is carried as an integer passthrough; its value is
  never computed with.  A `dict.get(k, d)` read of a possibly-absent source
  column is modelled as an `Option` field read with `getD d`.
-/

/-- Source `admins` row (Marzban).  `users_usage` is only read by the
migration_utils variant via `a.get("users_usage", 0)`. -/
structure MAdmin where
  id : Nat
  username : String
  hashed_password : String
  created_at : Int
  is_sudo : Bool
  password_reset_at : Option Int
  telegram_id : Option Int
  discord_webhook : Option String
  users_usage : Option Int
  deriving DecidableEq

/-- Target `admins` row written by marz-go-pasarguard.py (8 columns). -/
structure AdminRow where
  id : Nat
  username : String
  hashed_password : String
  created_at : Int
  is_sudo : Bool
  password_reset_at : Option Int
  telegram_id : Option Int
  discord_webhook : Option String
  deriving DecidableEq

/-- Target `admins` row written by migration_utils.py (10 columns:
the 8 above plus `used_traffic` and `is_disabled`). -/
structure AdminRowU where
  id : Nat
  username : String
  hashed_password : String
  created_at : Int
  is_sudo : Bool
  password_reset_at : Option Int
  telegram_id : Option Int
  discord_webhook : Option String
  used_traffic : Int
  is_disabled : Bool
  deriving DecidableEq

/-- Target `groups` row. -/
structure GroupRow where
  id : Nat
  name : String
  is_disabled : Bool
  deriving DecidableEq

/-- Target `core_configs` row (`created_at` is written with `NOW()` and
omitted; the JSON `config` column holds the serialized document). -/
structure CoreRow where
  id : Nat
  name : String
  config : String
  exclude_inbound_tags : String
  fallbacks_inbound_tags : String
  deriving DecidableEq

/-- Source `inbounds` row. -/
structure MInbound where
  id : Nat
  tag : String
  deriving DecidableEq

/-- Target `inbounds` row. -/
structure InboundRow where
  id : Nat
  tag : String
  deriving DecidableEq

/-- Target `inbounds_groups_association` row; primary key is the pair. -/
structure AssocRow where
  inbound_id : Nat
  group_id : Nat
  deriving DecidableEq

/-- Source `hosts` row. -/
structure MHost where
  id : Nat
  remark : Option String
  address : Option String
  port : Option Nat
  inbound_tag : Option String
  sni : Option String
  host : Option String
  security : Option String
  alpn : AlpnVal
  fingerprint : Option String
  allowinsecure : Option Bool
  is_disabled : Option Bool
  path : Option String
  random_user_agent : Option Bool
  use_sni_as_host : Option Bool
  priority : Option Int
  http_headers : PyJsonVal
  transport_settings : PyJsonVal
  mux_settings : PyJsonVal
  noise_settings : PyJsonVal
  fragment_settings : PyJsonVal
  status : Option String
  deriving DecidableEq

/-- Target `hosts` row (22 columns, after normalization). -/
structure HostRow where
  id : Nat
  remark : Option String
  address : Option String
  port : Option Nat
  inbound_tag : Option String
  sni : Option String
  host : Option String
  security : Option String
  alpn : Option String
  fingerprint : Option String
  allowinsecure : Option Bool
  is_disabled : Option Bool
  path : Option String
  random_user_agent : Bool
  use_sni_as_host : Bool
  priority : Int
  http_headers : Option String
  transport_settings : Option String
  mux_settings : Option String
  noise_settings : Option String
  fragment_settings : Option String
  status : Option String
  deriving DecidableEq

/-- Source `nodes` row. -/
structure MNode where
  id : Nat
  name : String
  address : String
  port : Option Nat
  status : Option String
  last_status_change : Option Int
  message : Option String
  created_at : Int
  uplink : Option Int
  downlink : Option Int
  xray_version : Option String
  usage_coefficient : Int
  node_version : Option String
  connection_type : Option String
  server_ca : Option String
  keep_alive : Option Bool
  max_logs : Option Int
  deriving DecidableEq

/-- Target `nodes` row. -/
structure NodeRow where
  id : Nat
  name : String
  address : String
  port : Option Nat
  status : Option String
  last_status_change : Option Int
  message : Option String
  created_at : Int
  uplink : Option Int
  downlink : Option Int
  xray_version : Option String
  usage_coefficient : Int
  node_version : Option String
  connection_type : Option String
  server_ca : String
  keep_alive : Bool
  max_logs : Int
  core_config_id : Nat
  gather_logs : Bool
  deriving DecidableEq

/-- Result of `json.loads` on the `settings` column of a proxy credential,
restricted to the projections the code reads via `s.get(...)`:
the stdlib parse is modelled by its outcome, `Option.none` standing for a
string on which `json.loads` raises. -/
structure PxSettings where
  id : Option String
  flow : Option String
  password : Option String
  method : Option String
  deriving DecidableEq

/-- Source `proxies` row (one credential, keyed to a user). -/
structure MProxy where
  id : Nat
  user_id : Nat
  type : String
  settings : Option PxSettings
  deriving DecidableEq

structure VmessCfg where
  id : Option String
  deriving DecidableEq

structure VlessCfg where
  id : Option String
  flow : String
  deriving DecidableEq

structure TrojanCfg where
  password : Option String
  deriving DecidableEq

structure ShadowsocksCfg where
  password : Option String
  method : Option String
  deriving DecidableEq

/-- The merged `proxy_settings` object built per user: a JSON object with at
most one entry per protocol family (a Python dict keyed by the four
protocol names). -/
structure ProxyCfg where
  vmess : Option VmessCfg
  vless : Option VlessCfg
  trojan : Option TrojanCfg
  shadowsocks : Option ShadowsocksCfg
  deriving DecidableEq

def emptyProxyCfg : ProxyCfg := ⟨none, none, none, none⟩

/-- Shared typ-dispatch of the per-credential merge loop (identical text in
both variants): `typ = p["type"].lower()`, then one branch per known
protocol family, last write wins; unknown types fall through. -/
def mergeProxySettings (acc : ProxyCfg) (typ : String) (s : PxSettings) : ProxyCfg :=
  if typ = "vmess" then ⟨some ⟨s.id⟩, acc.vless, acc.trojan, acc.shadowsocks⟩
  else if typ = "vless" then ⟨acc.vmess, some ⟨s.id, s.flow.getD ""⟩, acc.trojan, acc.shadowsocks⟩
  else if typ = "trojan" then ⟨acc.vmess, acc.vless, some ⟨s.password⟩, acc.shadowsocks⟩
  else if typ = "shadowsocks" then ⟨acc.vmess, acc.vless, acc.trojan, some ⟨s.password, s.method⟩⟩
  else acc

/-- A source `expire` column value: NULL, an epoch number, a string, or an
already-native datetime. -/
inductive PyExpire where
  | none
  | int (n : Int)
  | str (s : String)
  | dt (d : PyDatetime)
  deriving DecidableEq

/-- Source `users` row. -/
structure MUser where
  id : Nat
  username : String
  status : Option String
  used_traffic : Option Int
  data_limit : Option Int
  created_at : Int
  admin_id : Option Nat
  data_limit_reset_strategy : Option String
  sub_revoked_at : Option Int
  note : Option String
  online_at : Option Int
  edit_at : Option Int
  on_hold_timeout : Option Int
  on_hold_expire_duration : Option Int
  auto_delete_in_days : Option Int
  last_status_change : Option Int
  expire : PyExpire
  deriving DecidableEq

/-- Target `users` row.  The JSON `proxy_settings` column stores
`json.dumps` of the merged object; the serialization is injective on
`ProxyCfg`, so the structured value is stored directly. -/
structure UserRow where
  id : Nat
  username : String
  status : Option String
  used_traffic : Int
  data_limit : Option Int
  created_at : Int
  admin_id : Option Nat
  data_limit_reset_strategy : Option String
  sub_revoked_at : Option Int
  note : Option String
  online_at : Option Int
  edit_at : Option Int
  on_hold_timeout : Option Int
  on_hold_expire_duration : Option Int
  auto_delete_in_days : Option Int
  last_status_change : Option Int
  expire : Option PyDatetime
  proxy_settings : ProxyCfg
  deriving DecidableEq

/-- A parsed legacy xray configuration document, carried by its
`json.dumps` serialization. -/
structure XrayCfg where
  dump : String
  deriving DecidableEq

/-- `json.dumps` of the literal default configuration dict inserted by
`ensure_default_core_config`. -/
def defaultCoreConfigDump : String :=
  "\x7b\x22log\x22: \x7b\x22loglevel\x22: \x22warning\x22\x7d, "
    ++ "\x22inbounds\x22: [\x7b\x22tag\x22: \x22Shadowsocks TCP\x22, \x22listen\x22: \x220.0.0.0\x22, "
    ++ "\x22port\x22: 1080, \x22protocol\x22: \x22shadowsocks\x22, "
    ++ "\x22settings\x22: \x7b\x22clients\x22: [], \x22network\x22: \x22tcp,udp\x22\x7d\x7d], "
    ++ "\x22outbounds\x22: [\x7b\x22protocol\x22: \x22freedom\x22, \x22tag\x22: \x22DIRECT\x22\x7d, "
    ++ "\x7b\x22protocol\x22: \x22blackhole\x22, \x22tag\x22: \x22BLOCK\x22\x7d], "
    ++ "\x22routing\x22: \x7b\x22rules\x22: [\x7b\x22ip\x22: [\x22geoip:private\x22], "
    ++ "\x22outboundTag\x22: \x22BLOCK\x22, \x22type\x22: \x22field\x22\x7d]\x7d\x7d"

/-- The final id=1 write shared by both core-config migrators:
`INSERT (1, NOW(), name, config, <empty>, <empty>) ON DUPLICATE KEY UPDATE
name, config, created_at` (`ON CONFLICT (id) DO UPDATE` for Postgres).
On conflict only `name` and `config` change; the two tag columns keep
their previous values. -/
def upsert_core_config_one (nm : String) (dump : String) : List CoreRow → List CoreRow
  | [] => [⟨1, nm, dump, "", ""⟩]
  | r :: t =>
    if r.id = 1 then ⟨r.id, nm, dump, r.exclude_inbound_tags, r.fallbacks_inbound_tags⟩ :: t
    else r :: upsert_core_config_one nm dump t

namespace MarzGo

/-- Values tuple built by `migrate_admins` for one source row. -/
def adminValues (a : MAdmin) : AdminRow :=
  ⟨a.id, a.username, a.hashed_password, a.created_at, a.is_sudo,
   a.password_reset_at, a.telegram_id, a.discord_webhook⟩

/-- `migrate_admins`: `SELECT * FROM admins` (an absent source table makes
the SELECT raise), then one dialect-appropriate upsert per row keyed on
`id`; returns the number of source rows processed.  Both dialect branches
of `get_upsert_sql` update every non-key column to the incoming value, so
one upsert semantics covers them. -/
def migrate_admins (t : List AdminRow) (srcAdmins : Option (List MAdmin)) :
    Except String (List AdminRow × Nat) :=
  match srcAdmins with
  | Option.none => Except.error "source table admins missing"
  | Option.some admins =>
    Except.ok (runUpserts (fun r => r.id) t (admins.map adminValues), admins.length)

/-- `ensure_default_group`: `SELECT COUNT(*) FROM groups WHERE id = 1`;
insert the `DefaultGroup` row only when that count is zero. -/
def ensure_default_group (t : List GroupRow) : List GroupRow :=
  if (t.filter (fun g => g.id == 1)).length = 0 then
    t ++ [⟨1, "DefaultGroup", false⟩]
  else t

/-- `ensure_default_core_config`: `SELECT COUNT(*) FROM core_configs WHERE
id = 1`; insert the literal default config only when that count is zero. -/
def ensure_default_core_config (t : List CoreRow) : List CoreRow :=
  if (t.filter (fun r => r.id == 1)).length = 0 then
    t ++ [⟨1, "ASiS SK", defaultCoreConfigDump, "", ""⟩]
  else t

/-- `read_xray_config`: raises when the file is missing, unreadable, or
fails to parse; `file = none` models any of these. -/
def read_xray_config (file : Option XrayCfg) : Except String XrayCfg :=
  match file with
  | Option.none => Except.error "xray_config.json not found or unreadable"
  | Option.some c => Except.ok c

/-- `migrate_xray_config` (marz-go variant): fetch the id=1 row; if present,
archive it with a plain INSERT under id `existing["id"] + 1000` (a
duplicate key there raises, aborting the step), then upsert the new
document into id=1. -/
def migrate_xray_config (t : List CoreRow) (xray : XrayCfg) :
    Except String (List CoreRow × Nat) :=
  match lookupRow (fun r => r.id) t 1 with
  | Option.some existing =>
    match insertRow (fun r => r.id) t
        ⟨existing.id + 1000, "Backup_ASiS_SK", existing.config,
         existing.exclude_inbound_tags, existing.fallbacks_inbound_tags⟩ with
    | Except.error e => Except.error e
    | Except.ok t1 => Except.ok (upsert_core_config_one "ASiS SK" xray.dump t1, 1)
  | Option.none => Except.ok (upsert_core_config_one "ASiS SK" xray.dump t, 1)

/-- `migrate_inbounds_and_associate`: upsert every source inbound keyed on
`id`, then a second pass inserting `(inbound_id, 1)` association rows with
INSERT IGNORE / ON CONFLICT DO NOTHING. -/
def migrate_inbounds_and_associate (tIn : List InboundRow) (tAssoc : List AssocRow)
    (srcInbounds : Option (List MInbound)) :
    Except String (List InboundRow × List AssocRow × Nat) :=
  match srcInbounds with
  | Option.none => Except.error "source table inbounds missing"
  | Option.some inbounds =>
    let tIn2 := runUpserts (fun r => r.id) tIn
      (inbounds.map (fun i => (⟨i.id, i.tag⟩ : InboundRow)))
    let tAssoc2 := runInsertIgnores (fun a => (a.inbound_id, a.group_id)) tAssoc
      (inbounds.map (fun i => (⟨i.id, 1⟩ : AssocRow)))
    Except.ok (tIn2, tAssoc2, inbounds.length)

/-- Values tuple built by `migrate_hosts` for one source row (the
orchestrator passes `safe_alpn` as `safe_alpn_func`). -/
def hostValues (h : MHost) : HostRow :=
  ⟨h.id, h.remark, h.address, h.port, h.inbound_tag, h.sni, h.host, h.security,
   safe_alpn h.alpn, h.fingerprint, h.allowinsecure, h.is_disabled, h.path,
   h.random_user_agent.getD false, h.use_sni_as_host.getD false, h.priority.getD 0,
   safe_json h.http_headers, safe_json h.transport_settings, safe_json h.mux_settings,
   safe_json h.noise_settings, safe_json h.fragment_settings, h.status⟩

/-- `migrate_hosts`: one upsert per source row keyed on `id`. -/
def migrate_hosts (t : List HostRow) (srcHosts : Option (List MHost)) :
    Except String (List HostRow × Nat) :=
  match srcHosts with
  | Option.none => Except.error "source table hosts missing"
  | Option.some hosts =>
    Except.ok (runUpserts (fun r => r.id) t (hosts.map hostValues), hosts.length)

/-- Values tuple built by `migrate_nodes` for one source row:
`core_config_id` is forced to 1 and `gather_logs` to TRUE. -/
def nodeValues (n : MNode) : NodeRow :=
  ⟨n.id, n.name, n.address, n.port, n.status, n.last_status_change, n.message,
   n.created_at, n.uplink, n.downlink, n.xray_version, n.usage_coefficient,
   n.node_version, n.connection_type, n.server_ca.getD "", n.keep_alive.getD false,
   n.max_logs.getD 1000, 1, true⟩

/-- `migrate_nodes`: one upsert per source row keyed on `id`. -/
def migrate_nodes (t : List NodeRow) (srcNodes : Option (List MNode)) :
    Except String (List NodeRow × Nat) :=
  match srcNodes with
  | Option.none => Except.error "source table nodes missing"
  | Option.some nodes =>
    Except.ok (runUpserts (fun r => r.id) t (nodes.map nodeValues), nodes.length)

/-- Body of the per-credential merge loop of `migrate_users_and_proxies`
(marz-go variant): a row whose settings fail `json.loads` is skipped with a
warning (`continue`); otherwise the row is merged by its lowercased
protocol type. -/
def mergeProxyRow (acc : ProxyCfg) (p : MProxy) : ProxyCfg :=
  match p.settings with
  | Option.none => acc
  | Option.some s => mergeProxySettings acc (pyLower p.type) s

/-- Inline per-user credential merge loop of `migrate_users_and_proxies`
(marz-go variant): later rows overwrite earlier ones of the same protocol
family. -/
def build_proxy_cfg (proxies : List MProxy) : ProxyCfg :=
  proxies.foldl mergeProxyRow emptyProxyCfg

/-- Inline expiry normalization of `migrate_users_and_proxies` (marz-go
variant): a falsy `expire` leaves NULL; an integer epoch converts with
`datetime.datetime.fromtimestamp`; a string parses with
`dateutil.parser.parse` (or `fromisoformat`), a failed parse being caught
and logged, leaving NULL; a native datetime passes through.  (Float epochs
behave like integer ones and are outside the integer model.) -/
def normalize_expire (e : PyExpire) : Option PyDatetime :=
  match e with
  | PyExpire.none => none
  | PyExpire.int n => if n = 0 then none else some (fromtimestamp n)
  | PyExpire.str s => if s = "" then none else parse_date s
  | PyExpire.dt d => some d

/-- Values tuple built by `migrate_users_and_proxies` for one user, given
the credential rows returned by `SELECT * FROM proxies WHERE user_id = %s`. -/
def userValues (u : MUser) (proxies : List MProxy) : UserRow :=
  ⟨u.id, u.username, u.status, u.used_traffic.getD 0, u.data_limit,
   u.created_at, u.admin_id, u.data_limit_reset_strategy, u.sub_revoked_at,
   u.note, u.online_at, u.edit_at, u.on_hold_timeout, u.on_hold_expire_duration,
   u.auto_delete_in_days, u.last_status_change, normalize_expire u.expire,
   build_proxy_cfg proxies⟩

/-- `migrate_users_and_proxies` (marz-go variant): for each user, query the
source `proxies` rows with that `user_id` (in source iteration order),
build the merged proxy object and normalized expiry, then upsert keyed on
`id`; returns the user count. -/
def migrate_users_and_proxies (t : List UserRow) (srcUsers : Option (List MUser))
    (proxies : List MProxy) : Except String (List UserRow × Nat) :=
  match srcUsers with
  | Option.none => Except.error "source table users missing"
  | Option.some users =>
    Except.ok
      (runUpserts (fun r => r.id) t
        (users.map (fun u => userValues u (proxies.filter (fun p => p.user_id == u.id)))),
       users.length)

/-- A resolved connection descriptor, as produced by `get_db_config`
(credentials and dialect do not participate in the same-database guard). -/
structure DbConfig where
  host : String
  port : Nat
  db : String
  deriving DecidableEq

/-- The source (Marzban) database: one optional list per table read by
the migrators (`none` models an absent table, making `SELECT *` raise),
plus the credential rows. -/
structure MarzbanDB where
  admins : Option (List MAdmin)
  inbounds : Option (List MInbound)
  hosts : Option (List MHost)
  nodes : Option (List MNode)
  users : Option (List MUser)
  proxies : List MProxy
  deriving DecidableEq

/-- The target (Pasarguard) database.  The `CREATE TABLE IF NOT EXISTS`
steps of each migrator are identity on row contents, so tables are carried
as (possibly empty) row lists. -/
structure TargetDB where
  admins : List AdminRow
  groups : List GroupRow
  core_configs : List CoreRow
  inbounds : List InboundRow
  inbounds_groups_association : List AssocRow
  hosts : List HostRow
  nodes : List NodeRow
  users : List UserRow
  deriving DecidableEq

def TargetDB.withAdmins (d : TargetDB) (x : List AdminRow) : TargetDB :=
  ⟨x, d.groups, d.core_configs, d.inbounds, d.inbounds_groups_association,
   d.hosts, d.nodes, d.users⟩

def TargetDB.withGroups (d : TargetDB) (x : List GroupRow) : TargetDB :=
  ⟨d.admins, x, d.core_configs, d.inbounds, d.inbounds_groups_association,
   d.hosts, d.nodes, d.users⟩

def TargetDB.withCoreConfigs (d : TargetDB) (x : List CoreRow) : TargetDB :=
  ⟨d.admins, d.groups, x, d.inbounds, d.inbounds_groups_association,
   d.hosts, d.nodes, d.users⟩

def TargetDB.withInbounds (d : TargetDB) (x : List InboundRow) : TargetDB :=
  ⟨d.admins, d.groups, d.core_configs, x, d.inbounds_groups_association,
   d.hosts, d.nodes, d.users⟩

def TargetDB.withAssoc (d : TargetDB) (x : List AssocRow) : TargetDB :=
  ⟨d.admins, d.groups, d.core_configs, d.inbounds, x, d.hosts, d.nodes, d.users⟩

def TargetDB.withHosts (d : TargetDB) (x : List HostRow) : TargetDB :=
  ⟨d.admins, d.groups, d.core_configs, d.inbounds, d.inbounds_groups_association,
   x, d.nodes, d.users⟩

def TargetDB.withNodes (d : TargetDB) (x : List NodeRow) : TargetDB :=
  ⟨d.admins, d.groups, d.core_configs, d.inbounds, d.inbounds_groups_association,
   d.hosts, x, d.users⟩

def TargetDB.withUsers (d : TargetDB) (x : List UserRow) : TargetDB :=
  ⟨d.admins, d.groups, d.core_configs, d.inbounds, d.inbounds_groups_association,
   d.hosts, d.nodes, x⟩

/-- The `migration_summary` dict: per-entity counts, in the order
(admins, inbounds, hosts, nodes, users, xray_configs); the first five start
at 0, `xray_configs` is added when the core-config step finishes. -/
structure MigrationSummary where
  admins : Nat
  inbounds : Nat
  hosts : Nat
  nodes : Nat
  users : Nat
  xray_configs : Nat
  deriving DecidableEq

/-- Outcome of one orchestrator run: the boolean the function returns, the
final committed target database, and the summary counts reached. -/
structure RunResult where
  ok : Bool
  db : TargetDB
  summary : MigrationSummary
  deriving DecidableEq

/-- `migrate_marzban_to_pasarguard`: the orchestrator.  In source order:
the pre-flight file-access check; loading both configs; the same-database
guard over (host, port, db); the two connection tests; then the migrators
in fixed order, each committing at its end.  The whole migration body sits
in one `try`: any exception rolls back uncommitted work and returns False,
so the database on an error is the state at the last completed commit.
`fileAccessOk`, `marzConnOk`, `pasarConnOk` model the outcomes of
`check_file_access` and the two `connect` probes. -/
def migrate_marzban_to_pasarguard (fileAccessOk : Bool)
    (marzban_config pasarguard_config : DbConfig)
    (marzConnOk pasarConnOk : Bool) (src : MarzbanDB) (xray_file : Option XrayCfg)
    (db0 : TargetDB) : RunResult :=
  if ¬ fileAccessOk then ⟨false, db0, ⟨0, 0, 0, 0, 0, 0⟩⟩
  else if marzban_config.host = pasarguard_config.host
      ∧ marzban_config.port = pasarguard_config.port
      ∧ marzban_config.db = pasarguard_config.db then ⟨false, db0, ⟨0, 0, 0, 0, 0, 0⟩⟩
  else if ¬ marzConnOk then ⟨false, db0, ⟨0, 0, 0, 0, 0, 0⟩⟩
  else if ¬ pasarConnOk then ⟨false, db0, ⟨0, 0, 0, 0, 0, 0⟩⟩
  else
    match migrate_admins db0.admins src.admins with
    | Except.error _ => ⟨false, db0, ⟨0, 0, 0, 0, 0, 0⟩⟩
    | Except.ok (adminsT, nA) =>
      let db1 := (db0.withAdmins adminsT).withGroups
        (ensure_default_group db0.groups)
      let db2 := db1.withCoreConfigs (ensure_default_core_config db1.core_configs)
      match read_xray_config xray_file with
      | Except.error _ => ⟨false, db2, ⟨nA, 0, 0, 0, 0, 0⟩⟩
      | Except.ok cfg =>
        match migrate_xray_config db2.core_configs cfg with
        | Except.error _ => ⟨false, db2, ⟨nA, 0, 0, 0, 0, 0⟩⟩
        | Except.ok (coreT, nX) =>
          let db3 := db2.withCoreConfigs coreT
          match migrate_inbounds_and_associate db3.inbounds
              db3.inbounds_groups_association src.inbounds with
          | Except.error _ => ⟨false, db3, ⟨nA, 0, 0, 0, 0, nX⟩⟩
          | Except.ok (inT, asT, nI) =>
            let db4 := (db3.withInbounds inT).withAssoc asT
            match migrate_hosts db4.hosts src.hosts with
            | Except.error _ => ⟨false, db4, ⟨nA, nI, 0, 0, 0, nX⟩⟩
            | Except.ok (hostsT, nH) =>
              let db5 := db4.withHosts hostsT
              match migrate_nodes db5.nodes src.nodes with
              | Except.error _ => ⟨false, db5, ⟨nA, nI, nH, 0, 0, nX⟩⟩
              | Except.ok (nodesT, nN) =>
                let db6 := db5.withNodes nodesT
                match migrate_users_and_proxies db6.users src.users src.proxies with
                | Except.error _ => ⟨false, db6, ⟨nA, nI, nH, nN, 0, nX⟩⟩
                | Except.ok (usersT, nU) =>
                  ⟨true, db6.withUsers usersT, ⟨nA, nI, nH, nN, nU, nX⟩⟩

end MarzGo

namespace MigrationUtils

/-- Values tuple of the migration_utils `migrate_admins` INSERT:
the 8 source columns plus `used_traffic = a.get("users_usage", 0)` and the
literal `is_disabled = 0`. -/
def adminValues (a : MAdmin) : AdminRowU :=
  ⟨a.id, a.username, a.hashed_password, a.created_at, a.is_sudo,
   a.password_reset_at, a.telegram_id, a.discord_webhook, a.users_usage.getD 0, false⟩

/-- `migrate_admins` (migration_utils variant): one `INSERT IGNORE` per
source row — a primary-key conflict keeps the existing target row. -/
def migrate_admins (t : List AdminRowU) (admins : List MAdmin) : List AdminRowU :=
  runInsertIgnores (fun r => r.id) t (admins.map adminValues)

/-- `ensure_default_group` (migration_utils variant):
`SELECT COUNT(*) FROM groups` — the default row is inserted only when the
whole table is empty. -/
def ensure_default_group (t : List GroupRow) : List GroupRow :=
  if t.length = 0 then t ++ [⟨1, "DefaultGroup", false⟩] else t

/-- `SELECT MAX(id) AS max_id FROM core_configs`, with 0 standing for the
NULL an empty table yields (the caller guards it via `max_id or 1000`). -/
def maxCoreId (t : List CoreRow) : Nat :=
  t.foldl (fun acc r => max acc r.id) 0

/-- `migrate_xray_config` (migration_utils variant): reads the config file
itself — `read_xray_config` returns None on a missing or unreadable file,
in which case the step is skipped with a warning and the table is left
unchanged.  Otherwise, if an id=1 row exists, it is archived under
`max_id + 1` (with `max_id or 1000` guarding a falsy max), the backup
INSERT being wrapped in try/except so a failure only warns; finally the
new document is upserted into id=1. -/
def migrate_xray_config (xray_file : Option XrayCfg) (t : List CoreRow) : List CoreRow :=
  match xray_file with
  | Option.none => t
  | Option.some cfg =>
    let t1 :=
      match lookupRow (fun r => r.id) t 1 with
      | Option.some existing =>
        let m := maxCoreId t
        let mx := if m = 0 then 1000 else m
        match insertRow (fun r => r.id) t
            ⟨mx + 1, "Backup_Default_Core_Config", existing.config,
             existing.exclude_inbound_tags, existing.fallbacks_inbound_tags⟩ with
        | Except.error _ => t
        | Except.ok t2 => t2
      | Option.none => t
    upsert_core_config_one "ASiS SK" cfg.dump t1

/-- Inline per-user merge loop of `migrate_users_and_proxies`
(migration_utils variant): `json.loads(p["settings"])` is not guarded, so
a credential row with unparseable settings raises. -/
def build_proxy_cfg (proxies : List MProxy) : Except String ProxyCfg :=
  proxies.foldl
    (fun acc p =>
      match acc with
      | Except.error e => Except.error e
      | Except.ok c =>
        match p.settings with
        | Option.none => Except.error "invalid JSON in proxy settings"
        | Option.some s => Except.ok (mergeProxySettings c (pyLower p.type) s))
    (Except.ok emptyProxyCfg)

/-- Inline expiry normalization (migration_utils variant):
`datetime.datetime.fromtimestamp(u["expire"])` under a bare try/except —
a falsy expire leaves NULL, an integer epoch converts, and any
non-numeric value (strings and datetimes included) raises TypeError,
which is swallowed, leaving NULL. -/
def normalize_expire (e : PyExpire) : Option PyDatetime :=
  match e with
  | PyExpire.none => none
  | PyExpire.int n => if n = 0 then none else some (fromtimestamp n)
  | PyExpire.str s => if s = "" then none else none
  | PyExpire.dt _ => none

/-- Values tuple of the migration_utils `migrate_users_and_proxies`
INSERT IGNORE for one user. -/
def userValues (u : MUser) (cfg : ProxyCfg) : UserRow :=
  ⟨u.id, u.username, u.status, u.used_traffic.getD 0, u.data_limit,
   u.created_at, u.admin_id, u.data_limit_reset_strategy, u.sub_revoked_at,
   u.note, u.online_at, u.edit_at, u.on_hold_timeout, u.on_hold_expire_duration,
   u.auto_delete_in_days, u.last_status_change, normalize_expire u.expire, cfg⟩

/-- `migrate_users_and_proxies` (migration_utils variant): per user, the
secondary proxies query, the unguarded merge, then an INSERT IGNORE of the
row; an exception mid-loop propagates and the single commit at the end
never runs, losing the uncommitted rows. -/
def migrate_users_and_proxies (t : List UserRow) (users : List MUser)
    (proxies : List MProxy) : Except String (List UserRow × Nat) :=
  match users with
  | [] => Except.ok (t, 0)
  | u :: rest =>
    match build_proxy_cfg (proxies.filter (fun p => p.user_id == u.id)) with
    | Except.error e => Except.error e
    | Except.ok cfg =>
      match migrate_users_and_proxies
          (insertIgnoreRow (fun r => r.id) t (userValues u cfg)) rest proxies with
      | Except.error e => Except.error e
      | Except.ok (t2, n) => Except.ok (t2, n + 1)

end MigrationUtils

/-- The last credential row in `proxies` (source iteration order) that has
parseable settings and lowercased type `"vmess"` — the row the
last-one-wins merge rule should retain for the vmess family. -/
def lastValidVmess : List MProxy → Option PxSettings
  | [] => none
  | p :: rest =>
    match lastValidVmess rest with
    | some s => some s
    | none =>
      match p.settings with
      | Option.none => none
      | Option.some s => if pyLower p.type = "vmess" then some s else none

/-
  Concrete sample data used by the theorems below.
-/

def sampleAdmin : MAdmin := ⟨1, "alice", "hash-a", 100, true, none, none, none, none⟩

def oldAdminRowU : AdminRowU := ⟨1, "old-admin", "hash-z", 50, false, none, none, none, 0, false⟩

def sampleHost : MHost :=
  ⟨7, some "r", some "a.example", some 443, some "VLESS TCP", none, none, some "tls",
   AlpnVal.none, none, some false, some false, none, none, none, none,
   PyJsonVal.none, PyJsonVal.none, PyJsonVal.none, PyJsonVal.none, PyJsonVal.none, none⟩

def sampleInbound : MInbound := ⟨3, "VLESS TCP"⟩

def emptyTargetDB : MarzGo.TargetDB := ⟨[], [], [], [], [], [], [], []⟩

def marzCfgSample : MarzGo.DbConfig := ⟨"localhost", 3306, "marzban"⟩

def pasarCfgSample : MarzGo.DbConfig := ⟨"localhost", 3307, "pasarguard"⟩

/-- Source database whose `inbounds` table is missing, so the listener
migration step raises; admins and hosts are present. -/
def srcListenerFail : MarzGo.MarzbanDB :=
  ⟨some [sampleAdmin], none, some [sampleHost], some [], some [], []⟩

/-- Fully populated source database (all tables present). -/
def srcAllOk : MarzGo.MarzbanDB :=
  ⟨some [sampleAdmin], some [sampleInbound], some [sampleHost], some [], some [], []⟩

def goodVmessProxy : MProxy := ⟨11, 5, "vmess", some ⟨some "uuid-1", none, none, none⟩⟩

def otherVmessProxy : MProxy := ⟨12, 5, "vmess", some ⟨some "uuid-2", none, none, none⟩⟩

/-- A credential row whose `settings` string fails `json.loads`. -/
def badSettingsProxy : MProxy := ⟨13, 5, "vmess", none⟩

def sampleUser : MUser :=
  ⟨5, "bob", some "active", none, none, 200, none, none, none, none, none, none,
   none, none, none, none, PyExpire.none⟩

/-- A core_configs table holding an id=1 row and a leftover backup row at
id 1001 (the state any completed earlier migration run leaves behind). -/
def coreWithBackup : List CoreRow :=
  [⟨1, "ASiS SK", "OLDCFG", "", ""⟩, ⟨1001, "Backup_ASiS_SK", "OLDERCFG", "", ""⟩]

/-- A groups table that is non-empty but has no id=1 row. -/
def groupsOnlyTwo : List GroupRow := [⟨2, "SomeGroup", false⟩]

/-- The orchestrator run on `srcListenerFail` (listener table missing),
against an empty target. -/
def runListenerFailSample : MarzGo.RunResult :=
  MarzGo.migrate_marzban_to_pasarguard true marzCfgSample pasarCfgSample true true
    srcListenerFail (some ⟨"XCFG"⟩) emptyTargetDB

/-- The orchestrator run on `srcAllOk` with no readable legacy config,
against an empty target. -/
def runNoXraySample : MarzGo.RunResult :=
  MarzGo.migrate_marzban_to_pasarguard true marzCfgSample pasarCfgSample true true
    srcAllOk none emptyTargetDB

-- ===== THEOREMS =====

section TableLemmas

variable {α : Type} {K : Type} [DecidableEq K]

theorem lookupRow_key_eq {key : α → K} {t : List α} {k : K} {r : α}
    (h : lookupRow key t k = some r) : key r = k := by
  induction t with
  | nil => simp [lookupRow] at h
  | cons x t ih =>
    simp only [lookupRow] at h
    split at h
    · cases h; assumption
    · exact ih h

theorem lookupRow_append (key : α → K) (t : List α) (r : α) (k : K) :
    lookupRow key (t ++ [r]) k =
      match lookupRow key t k with
      | some x => some x
      | none => if key r = k then some r else none := by
  induction t with
  | nil => simp [lookupRow]
  | cons x t ih =>
    simp only [List.cons_append, lookupRow]
    split
    · rfl
    · exact ih

theorem lookupRow_upsertRow (key : α → K) (t : List α) (r : α) (k : K) :
    lookupRow key (upsertRow key r t) k =
      if key r = k then some r else lookupRow key t k := by
  induction t with
  | nil => simp [upsertRow, lookupRow]
  | cons x t ih =>
    simp only [upsertRow]
    by_cases hx : key x = key r
    · simp only [hx, if_pos rfl, lookupRow]
      by_cases hk : key r = k
      · simp [hk]
      · simp [hk, hx]
    · simp only [if_neg hx, lookupRow]
      by_cases hxk : key x = k
      · have hrk : ¬ key r = k := fun h => hx (hxk.trans h.symm)
        simp [hxk, hrk]
      · simp [hxk, ih]

theorem lookupRow_runUpserts (key : α → K) (rows : List α) (t : List α) (k : K) :
    lookupRow key (runUpserts key t rows) k =
      match lastWith key k rows with
      | some r => some r
      | none => lookupRow key t k := by
  induction rows generalizing t with
  | nil => simp [runUpserts, lastWith]
  | cons r rows ih =>
    simp only [runUpserts, List.foldl_cons, lastWith]
    rw [show List.foldl (fun acc x => upsertRow key x acc) (upsertRow key r t) rows
          = runUpserts key (upsertRow key r t) rows from rfl,
        ih]
    cases lastWith key k rows with
    | some x => rfl
    | none =>
      rw [lookupRow_upsertRow]
      by_cases h : key r = k <;> simp [h]

/-- Contents-level idempotence of an upsert loop: a second identical pass
changes no primary-key lookup. -/
theorem runUpserts_contents_idem (key : α → K) (t : List α) (rows : List α) (k : K) :
    lookupRow key (runUpserts key (runUpserts key t rows) rows) k =
      lookupRow key (runUpserts key t rows) k := by
  rw [lookupRow_runUpserts, lookupRow_runUpserts]
  cases lastWith key k rows with
  | some x => rfl
  | none => simp [lookupRow_runUpserts]

theorem mem_keysOf_upsertRow {key : α → K} {t : List α} {r : α} {k : K}
    (h : k ∈ keysOf key (upsertRow key r t)) : k ∈ keysOf key t ∨ k = key r := by
  induction t with
  | nil => simp [upsertRow, keysOf] at h; right; exact h
  | cons x t ih =>
    simp only [upsertRow] at h
    split at h
    · simp only [keysOf, List.map_cons, List.mem_cons] at h ⊢
      rcases h with h | h
      · right; exact h
      · left; right; exact h
    · simp only [keysOf, List.map_cons, List.mem_cons] at h ⊢
      rcases h with h | h
      · left; left; exact h
      · rcases ih h with h' | h'
        · left; right; exact h'
        · right; exact h'

theorem nodup_keysOf_upsertRow (key : α → K) (r : α) {t : List α}
    (h : (keysOf key t).Nodup) : (keysOf key (upsertRow key r t)).Nodup := by
  induction t with
  | nil => simp [upsertRow, keysOf]
  | cons x t ih =>
    simp only [keysOf, List.map_cons, List.nodup_cons] at h
    simp only [upsertRow]
    split
    · next hx =>
      simp only [keysOf, List.map_cons, List.nodup_cons]
      exact ⟨by rw [← hx]; exact h.1, h.2⟩
    · next hx =>
      simp only [keysOf, List.map_cons, List.nodup_cons]
      refine ⟨fun hmem => ?_, ih h.2⟩
      rcases mem_keysOf_upsertRow hmem with h' | h'
      · exact h.1 h'
      · exact hx h'

theorem nodup_keysOf_runUpserts (key : α → K) (rows : List α) {t : List α}
    (h : (keysOf key t).Nodup) : (keysOf key (runUpserts key t rows)).Nodup := by
  induction rows generalizing t with
  | nil => exact h
  | cons r rows ih =>
    exact ih (nodup_keysOf_upsertRow key r h)

theorem insertIgnoreRow_of_hasKey {key : α → K} {t : List α} {r : α}
    (h : hasKey key t (key r) = true) : insertIgnoreRow key t r = t := by
  simp [insertIgnoreRow, h]

theorem hasKey_insertIgnoreRow {key : α → K} {t : List α} {k : K} (r : α)
    (h : hasKey key t k = true) : hasKey key (insertIgnoreRow key t r) k = true := by
  unfold insertIgnoreRow
  split
  · exact h
  · unfold hasKey at h ⊢
    rw [lookupRow_append]
    cases hl : lookupRow key t k with
    | some x => simp
    | none => rw [hl] at h; simp at h

theorem hasKey_insertIgnoreRow_self (key : α → K) (t : List α) (r : α) :
    hasKey key (insertIgnoreRow key t r) (key r) = true := by
  unfold insertIgnoreRow
  split
  · assumption
  · next h =>
    unfold hasKey at h ⊢
    rw [lookupRow_append]
    cases hl : lookupRow key t (key r) with
    | some x => simp
    | none => simp

theorem hasKey_runInsertIgnores_mono (key : α → K) (rows : List α) {t : List α} {k : K}
    (h : hasKey key t k = true) : hasKey key (runInsertIgnores key t rows) k = true := by
  induction rows generalizing t with
  | nil => exact h
  | cons r rows ih => exact ih (hasKey_insertIgnoreRow r h)

theorem hasKey_runInsertIgnores_of_mem (key : α → K) {rows : List α} {r : α} (t : List α)
    (h : r ∈ rows) : hasKey key (runInsertIgnores key t rows) (key r) = true := by
  induction rows generalizing t with
  | nil => cases h
  | cons x rows ih =>
    rcases List.mem_cons.mp h with rfl | hmem
    · exact hasKey_runInsertIgnores_mono key rows (hasKey_insertIgnoreRow_self key t r)
    · exact ih _ hmem

theorem runInsertIgnores_of_allKeys {key : α → K} {t : List α} {rows : List α}
    (h : ∀ r ∈ rows, hasKey key t (key r) = true) : runInsertIgnores key t rows = t := by
  induction rows with
  | nil => rfl
  | cons r rows ih =>
    have h1 : insertIgnoreRow key t r = t := insertIgnoreRow_of_hasKey (h r (List.mem_cons_self r rows))
    show runInsertIgnores key (insertIgnoreRow key t r) rows = t
    rw [h1]
    exact ih (fun x hx => h x (List.mem_cons_of_mem r hx))

/-- List-level idempotence of an INSERT IGNORE loop: a second identical pass
leaves the table unchanged. -/
theorem runInsertIgnores_idem (key : α → K) (t : List α) (rows : List α) :
    runInsertIgnores key (runInsertIgnores key t rows) rows = runInsertIgnores key t rows :=
  runInsertIgnores_of_allKeys (fun _ hr => hasKey_runInsertIgnores_of_mem key _ hr)

end TableLemmas

section MoreTableLemmas

variable {α : Type} {K : Type} [DecidableEq K]

theorem lookupRow_mem {key : α → K} {t : List α} {k : K} {r : α}
    (h : lookupRow key t k = some r) : r ∈ t := by
  induction t with
  | nil => simp [lookupRow] at h
  | cons x t ih =>
    simp only [lookupRow] at h
    split at h
    · injection h with h2
      subst h2
      exact List.mem_cons_self x t
    · exact List.mem_cons_of_mem x (ih h)

theorem filter_key_length_zero_iff (key : α → Nat) (t : List α) (k : Nat) :
    (t.filter (fun r => key r == k)).length = 0 ↔ lookupRow key t k = none := by
  induction t with
  | nil => simp [lookupRow]
  | cons x t ih =>
    by_cases hx : key x = k
    · simp [List.filter_cons, lookupRow, hx]
    · simp [List.filter_cons, lookupRow, hx, ih]

end MoreTableLemmas

theorem lookup_upsert_core_one_at_one (nm d : String) (t : List CoreRow) :
    lookupRow (fun r => r.id) (upsert_core_config_one nm d t) 1 =
      match lookupRow (fun r => r.id) t 1 with
      | some r => some ⟨r.id, nm, d, r.exclude_inbound_tags, r.fallbacks_inbound_tags⟩
      | none => some ⟨1, nm, d, "", ""⟩ := by
  induction t with
  | nil => simp [upsert_core_config_one, lookupRow]
  | cons x t ih =>
    by_cases hx : x.id = 1
    · simp [upsert_core_config_one, hx, lookupRow]
    · simp only [upsert_core_config_one, lookupRow, if_neg hx]
      exact ih

theorem lookup_upsert_core_one_ne (nm d : String) (t : List CoreRow) (k : Nat)
    (hk : k ≠ 1) :
    lookupRow (fun r => r.id) (upsert_core_config_one nm d t) k
      = lookupRow (fun r => r.id) t k := by
  induction t with
  | nil =>
    have h1 : ¬ (1 : Nat) = k := fun h => hk h.symm
    simp [upsert_core_config_one, lookupRow, h1]
  | cons x t ih =>
    by_cases hx : x.id = 1
    · have hxk : ¬ x.id = k := fun h => hk (h.symm.trans hx)
      simp only [upsert_core_config_one, if_pos hx, lookupRow, if_neg hxk]
    · simp only [upsert_core_config_one, if_neg hx, lookupRow]
      by_cases hxk : x.id = k
      · simp [hxk]
      · simp [hxk, ih]

theorem upsert_core_one_of_absent (nm d : String) {t : List CoreRow}
    (h : lookupRow (fun r => r.id) t 1 = none) :
    upsert_core_config_one nm d t = t ++ [⟨1, nm, d, "", ""⟩] := by
  induction t with
  | nil => rfl
  | cons x t ih =>
    simp only [lookupRow] at h
    split at h
    · cases h
    · next hx =>
      simp only [upsert_core_config_one, if_neg hx, List.cons_append]
      rw [ih h]

theorem le_maxCoreId_aux (t : List CoreRow) (acc : Nat) :
    acc ≤ t.foldl (fun a r => max a r.id) acc := by
  induction t generalizing acc with
  | nil => exact Nat.le_refl acc
  | cons x t ih =>
    exact Nat.le_trans (Nat.le_max_left acc x.id) (ih (max acc x.id))

theorem mem_le_fold_max (t : List CoreRow) :
    ∀ (acc : Nat) (r : CoreRow), r ∈ t → r.id ≤ t.foldl (fun a x => max a x.id) acc := by
  induction t with
  | nil => intro acc r h; cases h
  | cons x t ih =>
    intro acc r h
    rcases List.mem_cons.mp h with rfl | hmem
    · exact Nat.le_trans (Nat.le_max_right acc r.id) (le_maxCoreId_aux t _)
    · exact ih _ r hmem

theorem le_maxCoreId {t : List CoreRow} {r : CoreRow} (h : r ∈ t) :
    r.id ≤ MigrationUtils.maxCoreId t :=
  mem_le_fold_max t 0 r h

theorem lookupRow_of_gt_maxCoreId {t : List CoreRow} {k : Nat}
    (h : MigrationUtils.maxCoreId t < k) :
    lookupRow (fun r => r.id) t k = none := by
  cases hl : lookupRow (fun r => r.id) t k with
  | none => rfl
  | some r =>
    have h1 : r.id = k := lookupRow_key_eq hl
    have h2 : r.id ≤ MigrationUtils.maxCoreId t := le_maxCoreId (lookupRow_mem hl)
    omega

/-- Claim C8 (corrected): both `safe_alpn` implementations map NULL to NULL,
and map a string to NULL exactly when its stripped, lowercased form is
"none", "null" or empty — so a whitespace-only string also yields NULL
rather than its (empty) stripped form; every other string maps to its
stripped form.  The three examples of the claim hold as stated. -/
theorem C8_safe_alpn_normalization :
    (∀ s, MarzGo.safe_alpn (AlpnVal.str s)
        = if pyLower (pyStrip s) ∈ (["none", "null", ""] : List String) then none
          else some (pyStrip s))
    ∧ (∀ s, MigrationUtils.safe_alpn (AlpnVal.str s)
        = if pyLower (pyStrip s) ∈ (["none", "null", ""] : List String) then none
          else some (pyStrip s))
    ∧ MarzGo.safe_alpn AlpnVal.none = none
    ∧ MigrationUtils.safe_alpn AlpnVal.none = none
    ∧ MarzGo.safe_alpn (AlpnVal.str "none") = none
    ∧ MarzGo.safe_alpn (AlpnVal.str "NULL ") = none
    ∧ MarzGo.safe_alpn (AlpnVal.str "h2,http/1.1") = some "h2,http/1.1" := by
  refine ⟨?_, ?_, rfl, rfl, by decide, by decide, by decide⟩ <;>
  · intro s
    by_cases hs : s = ""
    · subst hs; decide
    · simp [MarzGo.safe_alpn, MigrationUtils.safe_alpn, hs]

/-- Claim C8 counterexample: the whitespace-only string " " is non-empty and
does not strip to "none" or "null", yet `safe_alpn` maps it to NULL rather
than to its stripped form (the empty string), because the membership test
also matches the empty stripped form. -/
theorem C8_safe_alpn_counterexample :
    MarzGo.safe_alpn (AlpnVal.str " ") ≠ some (pyStrip " ")
    ∧ " " ≠ ""
    ∧ pyLower (pyStrip " ") ≠ "none"
    ∧ pyLower (pyStrip " ") ≠ "null"
    ∧ MarzGo.safe_alpn (AlpnVal.str " ") = none := by
  refine ⟨by decide, by decide, by decide, by decide, by decide⟩

/-- Claim C10 (corrected): the two `safe_alpn` implementations agree on NULL
and on every string input. -/
theorem C10_safe_alpn_agreement :
    MarzGo.safe_alpn AlpnVal.none = MigrationUtils.safe_alpn AlpnVal.none
    ∧ ∀ s, MarzGo.safe_alpn (AlpnVal.str s) = MigrationUtils.safe_alpn (AlpnVal.str s) :=
  ⟨rfl, fun _ => rfl⟩

/-- Claim C10 counterexample: on the list input `["h2"]` the marz-go variant
returns the JSON dump while the migration_utils variant returns Python
`str(...)` of the list — different strings. -/
theorem C10_safe_alpn_counterexample :
    MarzGo.safe_alpn (AlpnVal.list ["h2"]) = some "[\x22h2\x22]"
    ∧ MigrationUtils.safe_alpn (AlpnVal.list ["h2"]) = some "[\x27h2\x27]"
    ∧ MarzGo.safe_alpn (AlpnVal.list ["h2"]) ≠ MigrationUtils.safe_alpn (AlpnVal.list ["h2"]) := by
  refine ⟨by decide, by decide, by decide⟩

/-- Claim C9 counterexample: the migration_utils expiry normalizer maps a
parseable ISO string to NULL instead of converting it via string parsing;
the marz-go variant does convert the same string. -/
theorem C9_normalize_expire_counterexample :
    MigrationUtils.normalize_expire (PyExpire.str "2023-11-14T22:13:20") = none
    ∧ parse_date "2023-11-14T22:13:20" = some ⟨1700000000⟩
    ∧ MarzGo.normalize_expire (PyExpire.str "2023-11-14T22:13:20") = some ⟨1700000000⟩ := by
  refine ⟨by decide, by decide, by decide⟩

/-- Claim C9 (amended): both expiry normalizers map falsy inputs (NULL, the
epoch 0, the empty string) to NULL and convert a nonzero integer epoch via
`fromtimestamp`; the marz-go variant converts a string through the external
date parse and yields NULL exactly when the parse fails; the
migration_utils variant maps every string and every native datetime to
NULL, because its `fromtimestamp` call raises on them and the bare except
swallows the error.  The epoch 1700000000 equals the datetime whose UTC
civil form is 2023-11-14 22:13:20, and the string "garbage" yields NULL in
both variants without raising. -/
theorem C9_normalize_expire :
    (MarzGo.normalize_expire PyExpire.none = none
      ∧ MarzGo.normalize_expire (PyExpire.int 0) = none
      ∧ MarzGo.normalize_expire (PyExpire.str "") = none)
    ∧ (MigrationUtils.normalize_expire PyExpire.none = none
      ∧ MigrationUtils.normalize_expire (PyExpire.int 0) = none
      ∧ MigrationUtils.normalize_expire (PyExpire.str "") = none)
    ∧ (∀ n : Int, n ≠ 0 →
        MarzGo.normalize_expire (PyExpire.int n) = some (fromtimestamp n)
        ∧ MigrationUtils.normalize_expire (PyExpire.int n) = some (fromtimestamp n))
    ∧ (∀ s d, parse_date s = some d → MarzGo.normalize_expire (PyExpire.str s) = some d)
    ∧ (∀ s, parse_date s = none → MarzGo.normalize_expire (PyExpire.str s) = none)
    ∧ (∀ s, MigrationUtils.normalize_expire (PyExpire.str s) = none)
    ∧ (∀ d, MigrationUtils.normalize_expire (PyExpire.dt d) = none)
    ∧ MarzGo.normalize_expire (PyExpire.int 1700000000) = some ⟨1700000000⟩
    ∧ parse_date "2023-11-14T22:13:20" = some ⟨1700000000⟩
    ∧ MarzGo.normalize_expire (PyExpire.str "garbage") = none
    ∧ MigrationUtils.normalize_expire (PyExpire.str "garbage") = none := by
  refine ⟨⟨rfl, by decide, by decide⟩, ⟨rfl, by decide, by decide⟩,
    ?_, ?_, ?_, ?_, fun d => rfl, by decide, by decide, by decide, by decide⟩
  · intro n hn
    constructor <;> simp [MarzGo.normalize_expire, MigrationUtils.normalize_expire, hn]
  · intro s d hp
    by_cases hs : s = ""
    · subst hs
      rw [show parse_date "" = none from by decide] at hp
      cases hp
    · simp [MarzGo.normalize_expire, hs, hp]
  · intro s hp
    by_cases hs : s = ""
    · subst hs; decide
    · simp [MarzGo.normalize_expire, hs, hp]
  · intro s
    by_cases hs : s = ""
    · subst hs; decide
    · simp [MigrationUtils.normalize_expire, hs]

/-- Claim C9 witness: the amended statement evaluated at concrete inputs. -/
theorem C9_normalize_expire_witness :
    MarzGo.normalize_expire (PyExpire.int 42) = some (fromtimestamp 42)
    ∧ MarzGo.normalize_expire (PyExpire.str "2024-01-01T00:00:00") = some ⟨1704067200⟩
    ∧ MarzGo.normalize_expire (PyExpire.str "nope") = none
    ∧ MigrationUtils.normalize_expire (PyExpire.str "2024-01-01T00:00:00") = none := by
  obtain ⟨-, -, hInt, hSome, hNone, hStr, -, -, -, -, -⟩ := C9_normalize_expire
  exact ⟨(hInt 42 (by decide)).1, hSome "2024-01-01T00:00:00" ⟨1704067200⟩ (by decide),
    hNone "nope" (by decide), hStr "2024-01-01T00:00:00"⟩

/-- Claim C1 counterexample: the migration_utils `migrate_admins` writes
with INSERT IGNORE, not an upsert: against a target that already holds an
id=1 row, migrating a source id=1 row with different non-key values keeps
the old row untouched instead of updating the non-key columns to the
incoming values. -/
theorem C1_upsert_counterexample :
    MigrationUtils.migrate_admins [oldAdminRowU] [sampleAdmin] = [oldAdminRowU]
    ∧ lookupRow (fun r => r.id) (MigrationUtils.migrate_admins [oldAdminRowU] [sampleAdmin]) 1
        = some oldAdminRowU
    ∧ oldAdminRowU ≠ MigrationUtils.adminValues sampleAdmin
    ∧ sampleAdmin.id = oldAdminRowU.id := by
  refine ⟨by decide, by decide, by decide, by decide⟩

/-- Claim C1 (amended): in marz-go-pasarguard.py the entity migrators write
with true upserts — a second identical run changes no primary-key lookup
and returns the same count, key uniqueness is preserved, and migrating a
row leaves the incoming values under its key; the association pass of the
listener migrator and the migration_utils migrators use INSERT IGNORE,
which is also idempotent and free of duplicate keys, but keeps the
existing row on a conflict instead of updating it.  (Stated for the admins
migrators of both variants and the marz-go listener migrator.) -/
theorem C1_upsert_idempotence :
    (∀ (t t1 t2 : List AdminRow) (l : List MAdmin) (n1 n2 : Nat),
      MarzGo.migrate_admins t (some l) = Except.ok (t1, n1) →
      MarzGo.migrate_admins t1 (some l) = Except.ok (t2, n2) →
      (∀ k, lookupRow (fun r => r.id) t2 k = lookupRow (fun r => r.id) t1 k) ∧ n2 = n1)
    ∧ (∀ (t t1 : List AdminRow) (a : MAdmin) (n : Nat),
      MarzGo.migrate_admins t (some [a]) = Except.ok (t1, n) →
      lookupRow (fun r => r.id) t1 a.id = some (MarzGo.adminValues a))
    ∧ (∀ (t t1 : List AdminRow) (l : List MAdmin) (n : Nat),
      MarzGo.migrate_admins t (some l) = Except.ok (t1, n) →
      (keysOf (fun r => r.id) t).Nodup → (keysOf (fun r => r.id) t1).Nodup)
    ∧ (∀ (t : List AdminRowU) (l : List MAdmin),
      MigrationUtils.migrate_admins (MigrationUtils.migrate_admins t l) l
        = MigrationUtils.migrate_admins t l)
    ∧ (∀ (t : List AdminRowU) (a : MAdmin),
      hasKey (fun r => r.id) t a.id = true → MigrationUtils.migrate_admins t [a] = t)
    ∧ (∀ (tIn tIn1 tIn2 : List InboundRow) (tAs tAs1 tAs2 : List AssocRow)
        (l : List MInbound) (n1 n2 : Nat),
      MarzGo.migrate_inbounds_and_associate tIn tAs (some l) = Except.ok (tIn1, tAs1, n1) →
      MarzGo.migrate_inbounds_and_associate tIn1 tAs1 (some l) = Except.ok (tIn2, tAs2, n2) →
      tAs2 = tAs1 ∧ (∀ k, lookupRow (fun r => r.id) tIn2 k = lookupRow (fun r => r.id) tIn1 k)) := by
  refine ⟨?_, ?_, ?_, ?_, ?_, ?_⟩
  · intro t t1 t2 l n1 n2 h1 h2
    simp only [MarzGo.migrate_admins, Except.ok.injEq, Prod.mk.injEq] at h1 h2
    obtain ⟨ht1, hn1⟩ := h1
    obtain ⟨ht2, hn2⟩ := h2
    subst ht1
    subst ht2
    exact ⟨fun k => runUpserts_contents_idem _ _ _ k, by omega⟩
  · intro t t1 a n h
    simp only [MarzGo.migrate_admins, Except.ok.injEq, Prod.mk.injEq, List.map_cons,
      List.map_nil] at h
    obtain ⟨ht, -⟩ := h
    subst ht
    rw [lookupRow_runUpserts]
    simp [lastWith, MarzGo.adminValues]
  · intro t t1 l n h hnd
    simp only [MarzGo.migrate_admins, Except.ok.injEq, Prod.mk.injEq] at h
    obtain ⟨ht, -⟩ := h
    subst ht
    exact nodup_keysOf_runUpserts _ _ hnd
  · intro t l
    simp only [MigrationUtils.migrate_admins]
    exact runInsertIgnores_idem _ _ _
  · intro t a h
    simp only [MigrationUtils.migrate_admins, List.map_cons, List.map_nil]
    show insertIgnoreRow _ t (MigrationUtils.adminValues a) = t
    exact insertIgnoreRow_of_hasKey h
  · intro tIn tIn1 tIn2 tAs tAs1 tAs2 l n1 n2 h1 h2
    simp only [MarzGo.migrate_inbounds_and_associate, Except.ok.injEq, Prod.mk.injEq] at h1 h2
    obtain ⟨htIn1, htAs1, -⟩ := h1
    obtain ⟨htIn2, htAs2, -⟩ := h2
    subst htIn1
    subst htAs1
    subst htIn2
    subst htAs2
    exact ⟨runInsertIgnores_idem _ _ _, fun k => runUpserts_contents_idem _ _ _ k⟩

/-- Claim C1 witness: the amended statement evaluated at concrete inputs. -/
theorem C1_upsert_idempotence_witness :
    lookupRow (fun r => r.id)
        (runUpserts (fun r => r.id) ([] : List AdminRow) [MarzGo.adminValues sampleAdmin]) 1
      = some (MarzGo.adminValues sampleAdmin)
    ∧ MigrationUtils.migrate_admins (MigrationUtils.migrate_admins [] [sampleAdmin]) [sampleAdmin]
        = MigrationUtils.migrate_admins [] [sampleAdmin]
    ∧ MigrationUtils.migrate_admins [oldAdminRowU] [sampleAdmin] = [oldAdminRowU] := by
  obtain ⟨-, hover, -, huidem, hukeep, -⟩ := C1_upsert_idempotence
  exact ⟨hover [] _ sampleAdmin 1 rfl, huidem [] [sampleAdmin],
    hukeep [oldAdminRowU] sampleAdmin (by decide)⟩

/-- Claim C7 counterexample: the migration_utils default-group seeding
checks `COUNT(*)` of the whole table, so a non-empty groups table lacking
an id=1 row is left unchanged: afterwards no id=1 group exists. -/
theorem C7_default_group_counterexample :
    MigrationUtils.ensure_default_group groupsOnlyTwo = groupsOnlyTwo
    ∧ lookupRow (fun g => g.id) (MigrationUtils.ensure_default_group groupsOnlyTwo) 1 = none := by
  refine ⟨by decide, by decide⟩

/-- Claim C7 (amended): the marz-go `ensure_default_group` behaves as the
claim states — after it runs an id=1 group exists, a table already holding
an id=1 row is left entirely unchanged, and the operation is idempotent;
the migration_utils variant seeds the default only into an entirely empty
table (so a non-empty table without id=1 is left without one), never
modifies existing rows, and is likewise idempotent. -/
theorem C7_default_group :
    (∀ t, (lookupRow (fun g => g.id) (MarzGo.ensure_default_group t) 1).isSome = true)
    ∧ (∀ t r, lookupRow (fun g => g.id) t 1 = some r → MarzGo.ensure_default_group t = t)
    ∧ (∀ t, MarzGo.ensure_default_group (MarzGo.ensure_default_group t)
        = MarzGo.ensure_default_group t)
    ∧ MigrationUtils.ensure_default_group [] = [⟨1, "DefaultGroup", false⟩]
    ∧ (∀ t, t ≠ [] → MigrationUtils.ensure_default_group t = t)
    ∧ (∀ t, MigrationUtils.ensure_default_group (MigrationUtils.ensure_default_group t)
        = MigrationUtils.ensure_default_group t) := by
  have hExists : ∀ t, (lookupRow (fun g => g.id) (MarzGo.ensure_default_group t) 1).isSome = true := by
    intro t
    unfold MarzGo.ensure_default_group
    by_cases hc : (t.filter (fun g => g.id == 1)).length = 0
    · rw [if_pos hc, lookupRow_append, (filter_key_length_zero_iff _ t 1).mp hc]
      simp
    · rw [if_neg hc]
      cases hl : lookupRow (fun g => g.id) t 1 with
      | none => exact absurd ((filter_key_length_zero_iff _ t 1).mpr hl) hc
      | some r => rfl
  have hKeep : ∀ t r, lookupRow (fun g => g.id) t 1 = some r → MarzGo.ensure_default_group t = t := by
    intro t r hl
    unfold MarzGo.ensure_default_group
    rw [if_neg]
    intro hc
    rw [(filter_key_length_zero_iff _ t 1).mp hc] at hl
    cases hl
  have hUKeep : ∀ t, t ≠ [] → MigrationUtils.ensure_default_group t = t := by
    intro t ht
    unfold MigrationUtils.ensure_default_group
    rw [if_neg (fun hh => ht (List.length_eq_zero.mp hh))]
  refine ⟨hExists, hKeep, ?_, rfl, hUKeep, ?_⟩
  · intro t
    cases hl : lookupRow (fun g => g.id) (MarzGo.ensure_default_group t) 1 with
    | none =>
      have := hExists t
      rw [hl] at this
      cases this
    | some r => exact hKeep _ r hl
  · intro t
    by_cases ht : t = []
    · subst ht
      exact hUKeep _ (by decide)
    · rw [hUKeep t ht]
      exact hUKeep t ht

/-- Claim C7 witness: the amended statement evaluated at concrete inputs. -/
theorem C7_default_group_witness :
    MarzGo.ensure_default_group [⟨1, "KeepMe", true⟩] = [⟨1, "KeepMe", true⟩]
    ∧ MigrationUtils.ensure_default_group [⟨5, "Other", false⟩] = [⟨5, "Other", false⟩] := by
  obtain ⟨-, hKeep, -, -, hUKeep, -⟩ := C7_default_group
  exact ⟨hKeep _ ⟨1, "KeepMe", true⟩ (by decide), hUKeep _ (by decide)⟩

/-- Claim C3 counterexample: the marz-go backup id is `existing["id"] + 1000`,
which is not never-colliding — on a core_configs table already holding a
row at id 1001 (the state a previous completed run leaves behind), the
plain backup INSERT hits a duplicate key and the whole step raises instead
of archiving and overwriting. -/
theorem C3_core_config_counterexample :
    lookupRow (fun r => r.id) coreWithBackup 1 = some ⟨1, "ASiS SK", "OLDCFG", "", ""⟩
    ∧ MarzGo.migrate_xray_config coreWithBackup ⟨"NEWCFG"⟩ = Except.error "duplicate key" := by
  refine ⟨by decide, rfl⟩

/-- Claim C3 (amended): when an id=1 row exists, the marz-go migrator
archives it under id `existing.id + 1000` and the migration_utils migrator
under `max_id + 1`; when that archive id is free (always, for the
migration_utils choice) both the new content at id=1 and the prior content
at the archive id exist afterwards, the tag columns of the prior row surviving
on the id=1 row as well; in the marz-go variant the archive INSERT raises
a duplicate-key error when a row with that id already exists, aborting the
step.  When no id=1 row exists, both variants write the new configuration
directly, appending exactly the one row and creating no archive. -/
theorem C3_core_config_archival :
    (∀ (t : List CoreRow) (cfg : XrayCfg) (r : CoreRow) (t1 : List CoreRow) (n : Nat),
      lookupRow (fun x => x.id) t 1 = some r →
      lookupRow (fun x => x.id) t (r.id + 1000) = none →
      MarzGo.migrate_xray_config t cfg = Except.ok (t1, n) →
      lookupRow (fun x => x.id) t1 (r.id + 1000)
          = some ⟨r.id + 1000, "Backup_ASiS_SK", r.config, r.exclude_inbound_tags,
                  r.fallbacks_inbound_tags⟩
        ∧ lookupRow (fun x => x.id) t1 1
          = some ⟨1, "ASiS SK", cfg.dump, r.exclude_inbound_tags, r.fallbacks_inbound_tags⟩
        ∧ n = 1)
    ∧ (∀ (t : List CoreRow) (cfg : XrayCfg) (t1 : List CoreRow) (n : Nat),
      lookupRow (fun x => x.id) t 1 = none →
      MarzGo.migrate_xray_config t cfg = Except.ok (t1, n) →
      t1 = t ++ [⟨1, "ASiS SK", cfg.dump, "", ""⟩] ∧ n = 1)
    ∧ (∀ (t : List CoreRow) (cfg : XrayCfg) (r : CoreRow),
      lookupRow (fun x => x.id) t 1 = some r →
      lookupRow (fun x => x.id) (MigrationUtils.migrate_xray_config (some cfg) t)
          ((if MigrationUtils.maxCoreId t = 0 then 1000 else MigrationUtils.maxCoreId t) + 1)
        = some ⟨(if MigrationUtils.maxCoreId t = 0 then 1000 else MigrationUtils.maxCoreId t) + 1,
                "Backup_Default_Core_Config", r.config, r.exclude_inbound_tags,
                r.fallbacks_inbound_tags⟩
      ∧ lookupRow (fun x => x.id) (MigrationUtils.migrate_xray_config (some cfg) t) 1
        = some ⟨1, "ASiS SK", cfg.dump, r.exclude_inbound_tags, r.fallbacks_inbound_tags⟩)
    ∧ (∀ (t : List CoreRow) (cfg : XrayCfg),
      lookupRow (fun x => x.id) t 1 = none →
      MigrationUtils.migrate_xray_config (some cfg) t
        = t ++ [⟨1, "ASiS SK", cfg.dump, "", ""⟩]) := by
  refine ⟨?_, ?_, ?_, ?_⟩
  · intro t cfg r t1 n h1 h2 h3
    have hr1 : r.id = 1 := lookupRow_key_eq h1
    have hne1 : r.id + 1000 ≠ 1 := by omega
    simp only [MarzGo.migrate_xray_config, h1, insertRow, hasKey, h2, Option.isSome_none,
      Bool.false_eq_true, if_false, Except.ok.injEq, Prod.mk.injEq] at h3
    obtain ⟨ht1, hn⟩ := h3
    subst ht1
    refine ⟨?_, ?_, hn.symm⟩
    · rw [lookup_upsert_core_one_ne _ _ _ _ hne1, lookupRow_append, h2]
      simp
    · rw [lookup_upsert_core_one_at_one, lookupRow_append, h1]
      simp [hr1]
  · intro t cfg t1 n h1 h3
    simp only [MarzGo.migrate_xray_config, h1, Except.ok.injEq, Prod.mk.injEq] at h3
    obtain ⟨ht1, hn⟩ := h3
    subst ht1
    exact ⟨upsert_core_one_of_absent _ _ h1, hn.symm⟩
  · intro t cfg r h1
    have hr1 : r.id = 1 := lookupRow_key_eq h1
    have hm1 : 1 ≤ MigrationUtils.maxCoreId t := hr1 ▸ le_maxCoreId (lookupRow_mem h1)
    have hmxge : MigrationUtils.maxCoreId t
        ≤ (if MigrationUtils.maxCoreId t = 0 then 1000 else MigrationUtils.maxCoreId t) := by
      split <;> omega
    have hfresh : lookupRow (fun x => x.id) t
        ((if MigrationUtils.maxCoreId t = 0 then 1000 else MigrationUtils.maxCoreId t) + 1)
        = none := lookupRow_of_gt_maxCoreId (by omega)
    have hne1 : (if MigrationUtils.maxCoreId t = 0 then 1000 else MigrationUtils.maxCoreId t) + 1
        ≠ 1 := by split <;> omega
    simp only [MigrationUtils.migrate_xray_config, h1, insertRow, hasKey, hfresh,
      Option.isSome_none, Bool.false_eq_true, if_false]
    refine ⟨?_, ?_⟩
    · rw [lookup_upsert_core_one_ne _ _ _ _ hne1, lookupRow_append, hfresh]
      simp
    · rw [lookup_upsert_core_one_at_one, lookupRow_append, h1]
      simp [hr1]
  · intro t cfg h1
    simp only [MigrationUtils.migrate_xray_config, h1]
    exact upsert_core_one_of_absent _ _ h1

/-- Claim C3 witness: the amended statement evaluated at concrete inputs. -/
theorem C3_core_config_archival_witness :
    lookupRow (fun x => x.id)
        ([⟨1, "ASiS SK", "NEW", "", ""⟩, ⟨1001, "Backup_ASiS_SK", "OLD", "", ""⟩] : List CoreRow) 1001
      = some ⟨1001, "Backup_ASiS_SK", "OLD", "", ""⟩
    ∧ MigrationUtils.migrate_xray_config (some ⟨"NEW"⟩) [] = [⟨1, "ASiS SK", "NEW", "", ""⟩] := by
  obtain ⟨hm, -, -, hu⟩ := C3_core_config_archival
  have h := hm [⟨1, "ASiS SK", "OLD", "", ""⟩] ⟨"NEW"⟩ ⟨1, "ASiS SK", "OLD", "", ""⟩
      [⟨1, "ASiS SK", "NEW", "", ""⟩, ⟨1001, "Backup_ASiS_SK", "OLD", "", ""⟩] 1
      (by decide) (by decide) rfl
  exact ⟨h.1, hu [] ⟨"NEW"⟩ (by decide)⟩

theorem mergeProxySettings_vmess (acc : ProxyCfg) (typ : String) (s : PxSettings) :
    (mergeProxySettings acc typ s).vmess
      = if typ = "vmess" then some ⟨s.id⟩ else acc.vmess := by
  unfold mergeProxySettings
  split_ifs <;> rfl

theorem foldl_mergeProxyRow_vmess (ps : List MProxy) :
    ∀ acc : ProxyCfg, (ps.foldl MarzGo.mergeProxyRow acc).vmess
      = match lastValidVmess ps with
        | some s => some ⟨s.id⟩
        | none => acc.vmess := by
  induction ps with
  | nil => intro acc; rfl
  | cons p rest ih =>
    intro acc
    simp only [List.foldl_cons, lastValidVmess]
    rw [ih]
    cases hl : lastValidVmess rest with
    | some s => rfl
    | none =>
      cases hs : p.settings with
      | none => simp [MarzGo.mergeProxyRow, hs]
      | some s =>
        by_cases ht : pyLower p.type = "vmess"
        · simp [MarzGo.mergeProxyRow, hs, ht, mergeProxySettings_vmess]
        · simp [MarzGo.mergeProxyRow, hs, ht, mergeProxySettings_vmess]

/-- Claim C4 counterexample: a credential row whose settings fail JSON
parsing aborts the whole migration_utils user migration with an error
instead of being skipped with a warning; the marz-go variant migrates the
same user successfully. -/
theorem C4_proxy_merge_counterexample :
    MigrationUtils.migrate_users_and_proxies [] [sampleUser] [goodVmessProxy, badSettingsProxy]
      = Except.error "invalid JSON in proxy settings"
    ∧ MarzGo.migrate_users_and_proxies [] (some [sampleUser]) [goodVmessProxy, badSettingsProxy]
      = Except.ok ([MarzGo.userValues sampleUser [goodVmessProxy, badSettingsProxy]], 1) := by
  refine ⟨rfl, rfl⟩

/-- Claim C4 (amended): in both variants the merged proxy object keeps at
most one entry per protocol family, the retained vmess entry being the
last parseable vmess credential in source iteration order, and credential
rows of unknown protocol types are ignored; in marz-go-pasarguard.py a
credential whose settings fail JSON parsing is skipped without aborting —
the user migration never raises and the row of the user is still written —
while in migration_utils.py the unguarded `json.loads` makes such a row
abort the migration of that user (see the counterexample). -/
theorem C4_proxy_merge :
    (∀ ps, (MarzGo.build_proxy_cfg ps).vmess
        = match lastValidVmess ps with
          | some s => some ⟨s.id⟩
          | none => none)
    ∧ (∀ (acc : ProxyCfg) (p : MProxy) (s : PxSettings), p.settings = some s →
        pyLower p.type ∉ (["vmess", "vless", "trojan", "shadowsocks"] : List String) →
        MarzGo.mergeProxyRow acc p = acc)
    ∧ (∀ (acc : ProxyCfg) (p : MProxy), p.settings = none → MarzGo.mergeProxyRow acc p = acc)
    ∧ (∀ (t : List UserRow) (users : List MUser) (proxies : List MProxy) (e : String),
        MarzGo.migrate_users_and_proxies t (some users) proxies ≠ Except.error e)
    ∧ (∀ (t : List UserRow) (u : MUser) (p : MProxy) (t1 : List UserRow) (n : Nat),
        p.settings = none → p.user_id = u.id →
        MarzGo.migrate_users_and_proxies t (some [u]) [p] = Except.ok (t1, n) →
        lookupRow (fun r => r.id) t1 u.id = some (MarzGo.userValues u [p])) := by
  refine ⟨?_, ?_, ?_, ?_, ?_⟩
  · intro ps
    exact foldl_mergeProxyRow_vmess ps emptyProxyCfg
  · intro acc p s hs hmem
    simp only [List.mem_cons, List.not_mem_nil, or_false, not_or] at hmem
    obtain ⟨h1, h2, h3, h4⟩ := hmem
    simp [MarzGo.mergeProxyRow, hs, mergeProxySettings, h1, h2, h3, h4]
  · intro acc p hs
    simp [MarzGo.mergeProxyRow, hs]
  · intro t users proxies e h
    simp [MarzGo.migrate_users_and_proxies] at h
  · intro t u p t1 n hps hpu h3
    have hf : List.filter (fun q => q.user_id == u.id) [p] = [p] := by
      simp [List.filter, hpu]
    simp only [MarzGo.migrate_users_and_proxies, List.map_cons, List.map_nil, hf,
      Except.ok.injEq, Prod.mk.injEq] at h3
    obtain ⟨ht1, -⟩ := h3
    subst ht1
    rw [lookupRow_runUpserts]
    simp [lastWith, MarzGo.userValues]

/-- Claim C4 witness: the amended statement evaluated at concrete inputs —
two vmess credentials for one user merge to exactly the later one, an
unknown protocol type is ignored, an unparseable credential is skipped,
and the row of the user is still written. -/
theorem C4_proxy_merge_witness :
    (MarzGo.build_proxy_cfg [goodVmessProxy, otherVmessProxy]).vmess = some ⟨some "uuid-2"⟩
    ∧ MarzGo.mergeProxyRow emptyProxyCfg ⟨20, 5, "wireguard", some ⟨none, none, none, none⟩⟩
        = emptyProxyCfg
    ∧ MarzGo.mergeProxyRow emptyProxyCfg badSettingsProxy = emptyProxyCfg
    ∧ lookupRow (fun r => r.id) [MarzGo.userValues sampleUser [badSettingsProxy]] 5
        = some (MarzGo.userValues sampleUser [badSettingsProxy]) := by
  obtain ⟨hlast, hunk, hskip, -, hrow⟩ := C4_proxy_merge
  refine ⟨?_, hunk _ _ _ rfl (by decide), hskip _ _ rfl,
    hrow [] sampleUser badSettingsProxy _ 1 rfl rfl rfl⟩
  rw [hlast [goodVmessProxy, otherVmessProxy]]
  decide

/-- Claim C2: if the resolved source and target descriptors share
(host, port, database), the orchestrator returns failure with the target
database unchanged and every summary count zero — no write occurs —
whatever the file-access outcome, the connection outcomes, the source
contents, the legacy config, and the initial target state are. -/
theorem C2_same_database_guard (fileAccessOk marzConnOk pasarConnOk : Bool)
    (mc pc : MarzGo.DbConfig) (src : MarzGo.MarzbanDB) (xray : Option XrayCfg)
    (db0 : MarzGo.TargetDB)
    (hhost : mc.host = pc.host) (hport : mc.port = pc.port) (hdb : mc.db = pc.db) :
    MarzGo.migrate_marzban_to_pasarguard fileAccessOk mc pc marzConnOk pasarConnOk src xray db0
      = ⟨false, db0, ⟨0, 0, 0, 0, 0, 0⟩⟩ := by
  unfold MarzGo.migrate_marzban_to_pasarguard
  by_cases hf : fileAccessOk
  · rw [if_neg (by simp [hf]), if_pos ⟨hhost, hport, hdb⟩]
  · rw [if_pos (by simp [hf])]

/-- Claim C2 witness: the guard evaluated at identical concrete descriptors. -/
theorem C2_same_database_guard_witness :
    MarzGo.migrate_marzban_to_pasarguard true marzCfgSample marzCfgSample true true
        srcAllOk (some ⟨"XCFG"⟩) emptyTargetDB
      = ⟨false, emptyTargetDB, ⟨0, 0, 0, 0, 0, 0⟩⟩ :=
  C2_same_database_guard true true true marzCfgSample marzCfgSample srcAllOk (some ⟨"XCFG"⟩)
    emptyTargetDB rfl rfl rfl

/-- Claim C5 counterexample: with the source listener table missing, the
listener step raises and the single try/except of the orchestrator aborts the
whole run: it returns failure and the host row present in the source is
not migrated — the target hosts table stays empty and the summary host
count is zero — even though the admins step had succeeded and its count is
reported. -/
theorem C5_partial_failure_counterexample :
    runListenerFailSample.ok = false
    ∧ srcListenerFail.hosts = some [sampleHost]
    ∧ runListenerFailSample.db.hosts = []
    ∧ runListenerFailSample.summary.hosts = 0
    ∧ runListenerFailSample.summary.admins = 1 := by
  refine ⟨by decide, by decide, by decide, by decide, by decide⟩

/-- Claim C5 (amended): the orchestrator wraps all migrators in one
try/except, so an exception in the listener step (here: the source
listener table missing) aborts the run instead of being recorded as a
non-fatal warning: the run returns failure, entity types committed before
the failure persist (the admins are migrated and counted), and the
remaining migrators never run — the hosts, nodes and users of the target stay
exactly the initial ones and their summary counts are zero. -/
theorem C5_partial_failure (mc pc : MarzGo.DbConfig) (src : MarzGo.MarzbanDB)
    (xray : Option XrayCfg) (db0 : MarzGo.TargetDB) (as : List MAdmin)
    (hguard : ¬ (mc.host = pc.host ∧ mc.port = pc.port ∧ mc.db = pc.db))
    (hadmins : src.admins = some as)
    (hinb : src.inbounds = none) :
    (MarzGo.migrate_marzban_to_pasarguard true mc pc true true src xray db0).ok = false
    ∧ (MarzGo.migrate_marzban_to_pasarguard true mc pc true true src xray db0).db.admins
        = runUpserts (fun r => r.id) db0.admins (as.map MarzGo.adminValues)
    ∧ (MarzGo.migrate_marzban_to_pasarguard true mc pc true true src xray db0).db.hosts
        = db0.hosts
    ∧ (MarzGo.migrate_marzban_to_pasarguard true mc pc true true src xray db0).db.nodes
        = db0.nodes
    ∧ (MarzGo.migrate_marzban_to_pasarguard true mc pc true true src xray db0).db.users
        = db0.users
    ∧ (MarzGo.migrate_marzban_to_pasarguard true mc pc true true src xray db0).summary.admins
        = as.length
    ∧ (MarzGo.migrate_marzban_to_pasarguard true mc pc true true src xray db0).summary.hosts
        = 0
    ∧ (MarzGo.migrate_marzban_to_pasarguard true mc pc true true src xray db0).summary.users
        = 0 := by
  rcases hx : MarzGo.read_xray_config xray with e | cfg
  · unfold MarzGo.migrate_marzban_to_pasarguard
    rw [if_neg (by simp), if_neg hguard, if_neg (by simp), if_neg (by simp),
      hadmins, hinb]
    simp [MarzGo.migrate_admins, hx, MarzGo.TargetDB.withAdmins, MarzGo.TargetDB.withGroups,
      MarzGo.TargetDB.withCoreConfigs]
  · rcases hmx : MarzGo.migrate_xray_config
        (MarzGo.ensure_default_core_config db0.core_configs) cfg with e2 | ⟨coreT, nX⟩
    · unfold MarzGo.migrate_marzban_to_pasarguard
      rw [if_neg (by simp), if_neg hguard, if_neg (by simp), if_neg (by simp),
        hadmins, hinb]
      simp [MarzGo.migrate_admins, hx, hmx, MarzGo.TargetDB.withAdmins,
        MarzGo.TargetDB.withGroups, MarzGo.TargetDB.withCoreConfigs]
    · unfold MarzGo.migrate_marzban_to_pasarguard
      rw [if_neg (by simp), if_neg hguard, if_neg (by simp), if_neg (by simp),
        hadmins, hinb]
      simp [MarzGo.migrate_admins, hx, hmx, MarzGo.TargetDB.withAdmins,
        MarzGo.TargetDB.withGroups, MarzGo.TargetDB.withCoreConfigs,
        MarzGo.migrate_inbounds_and_associate]

/-- Claim C5 witness: the amended statement evaluated at a concrete input. -/
theorem C5_partial_failure_witness :
    runListenerFailSample.ok = false
    ∧ runListenerFailSample.db.hosts = ([] : List HostRow)
    ∧ runListenerFailSample.summary.admins = 1
    ∧ runListenerFailSample.summary.hosts = 0 := by
  have h := C5_partial_failure marzCfgSample pasarCfgSample srcListenerFail (some ⟨"XCFG"⟩)
      emptyTargetDB [sampleAdmin] (by decide) rfl rfl
  exact ⟨h.1, h.2.2.1, h.2.2.2.2.2.1, h.2.2.2.2.2.2.1⟩

/-- Claim C6 counterexample: with every source table present but the legacy
configuration unavailable, the marz-go run does not skip the core-config
step and continue — it returns failure, and the listener present in the
source is never migrated. -/
theorem C6_missing_config_counterexample :
    runNoXraySample.ok = false
    ∧ srcAllOk.inbounds = some [sampleInbound]
    ∧ runNoXraySample.db.inbounds = []
    ∧ runNoXraySample.summary.inbounds = 0 := by
  refine ⟨by decide, by decide, by decide, by decide⟩

/-- Claim C6 (amended): when no legacy configuration document is available,
the migration_utils `migrate_xray_config` skips the step with a warning
and leaves the core-config table unchanged; the marz-go orchestrator
instead aborts — `read_xray_config` raises, so the run returns failure
with the listener, host and user migrations never attempted — and when the
file is missing the pre-flight `check_file_access` already fails the run
before any write. -/
theorem C6_missing_config :
    (∀ t, MigrationUtils.migrate_xray_config none t = t)
    ∧ (∀ (mc pc : MarzGo.DbConfig) (src : MarzGo.MarzbanDB) (db0 : MarzGo.TargetDB)
        (as : List MAdmin),
        ¬ (mc.host = pc.host ∧ mc.port = pc.port ∧ mc.db = pc.db) → src.admins = some as →
        (MarzGo.migrate_marzban_to_pasarguard true mc pc true true src none db0).ok = false
        ∧ (MarzGo.migrate_marzban_to_pasarguard true mc pc true true src none db0).db.inbounds
            = db0.inbounds
        ∧ (MarzGo.migrate_marzban_to_pasarguard true mc pc true true src none db0).db.hosts
            = db0.hosts
        ∧ (MarzGo.migrate_marzban_to_pasarguard true mc pc true true src none db0).db.users
            = db0.users
        ∧ (MarzGo.migrate_marzban_to_pasarguard true mc pc true true src none db0).summary.xray_configs
            = 0
        ∧ (MarzGo.migrate_marzban_to_pasarguard true mc pc true true src none db0).summary.inbounds
            = 0)
    ∧ (∀ (mc pc : MarzGo.DbConfig) (marzConnOk pasarConnOk : Bool) (src : MarzGo.MarzbanDB)
        (xray : Option XrayCfg) (db0 : MarzGo.TargetDB),
        MarzGo.migrate_marzban_to_pasarguard false mc pc marzConnOk pasarConnOk src xray db0
          = ⟨false, db0, ⟨0, 0, 0, 0, 0, 0⟩⟩) := by
  refine ⟨fun t => rfl, ?_, ?_⟩
  · intro mc pc src db0 as hguard hadmins
    unfold MarzGo.migrate_marzban_to_pasarguard
    rw [if_neg (by simp), if_neg hguard, if_neg (by simp), if_neg (by simp)]
    rw [hadmins]
    simp [MarzGo.migrate_admins, MarzGo.read_xray_config, MarzGo.TargetDB.withAdmins,
      MarzGo.TargetDB.withGroups, MarzGo.TargetDB.withCoreConfigs]
  · intro mc pc marzConnOk pasarConnOk src xray db0
    unfold MarzGo.migrate_marzban_to_pasarguard
    rw [if_pos (by simp)]

/-- Claim C6 witness: the amended statement evaluated at concrete inputs. -/
theorem C6_missing_config_witness :
    MigrationUtils.migrate_xray_config none coreWithBackup = coreWithBackup
    ∧ runNoXraySample.db.hosts = ([] : List HostRow)
    ∧ runNoXraySample.ok = false := by
  obtain ⟨hskip, habort, -⟩ := C6_missing_config
  have h := habort marzCfgSample pasarCfgSample srcAllOk emptyTargetDB [sampleAdmin]
      (by decide) rfl
  exact ⟨hskip coreWithBackup, h.2.2.1, h.1⟩
